import Mathlib

/-!
Verification of the sustainability-scoring system
(Quantifying-sustainability-in-fashion-).

The repository ships the frontend (TypeScript) and build tooling; the
scoring engine itself is a backend component whose code is not present,
so the engine is modelled from the specification (each such definition is
marked `Modelled from the spec:`).  Frontend functions (`getScoreColor`,
`getScoreLabel`, `getScoreBadgeColor`, the `ScoreForm` materials-list
operations) are embedded directly from the TypeScript source.

Numbers are modelled as exact rationals (ℚ).
-/

namespace FashionScore

/-- `MaterialReference` row (spec §3 / frontend types.ts). -/
structure MaterialReference where
  name : String
  category : String
  carbon_kg_co2e : ℚ
  water_l : ℚ
  fossil_energy_mj : ℚ
  chemical_impact : ℚ
  notes : String
deriving DecidableEq

instance : Inhabited MaterialReference :=
  ⟨⟨"", "", 0, 0, 0, 0, ""⟩⟩

/-- `OriginReference` row (spec §3 / frontend types.ts). -/
structure OriginReference where
  name : String
  energy_grid_intensity : ℚ
  transport_impact : ℚ
  manufacturing_impact : ℚ
  notes : String
deriving DecidableEq

instance : Inhabited OriginReference :=
  ⟨⟨"", 0, 0, 0, ""⟩⟩

/-- `CareReference` row (spec §3 / frontend types.ts). -/
structure CareReference where
  name : String
  energy_use_mj : ℚ
  water_use_l : ℚ
  co2_kg : ℚ
  notes : String
deriving DecidableEq

instance : Inhabited CareReference :=
  ⟨⟨"", 0, 0, 0, ""⟩⟩

/-- `CertificationReference` row (spec §3 / frontend types.ts). -/
structure CertificationReference where
  name : String
  category : String
  score_bonus : ℚ
  description : String
deriving DecidableEq

/-- `MaterialInput` (frontend types.ts): one (name, percentage) entry. -/
structure MaterialInput where
  name : String
  percentage : ℚ
deriving DecidableEq

/-- `ProductInput` (spec §3 / frontend types.ts).  Certification slots are
modelled as `Option String` (spec §9: explicit optional type for the
"no certification" sentinel). -/
structure ProductInput where
  product_name : String
  brand : Option String := none
  category : Option String := none
  subcategory : Option String := none
  materials : List MaterialInput
  origin : String
  care_instruction : String
  certification1 : Option String := none
  certification2 : Option String := none
deriving DecidableEq

/-- `MaterialImpactBreakdown` (frontend types.ts): four normalized values. -/
structure MaterialImpactBreakdown where
  co2 : ℚ
  water : ℚ
  energy : ℚ
  chemical : ℚ
deriving DecidableEq

/-- `ImpactBreakdown` for the care phase (frontend types.ts). -/
structure CareImpactBreakdown where
  co2 : ℚ
  water : ℚ
  energy : ℚ
deriving DecidableEq

/-- `OriginImpactBreakdown` (frontend types.ts). -/
structure OriginImpactBreakdown where
  grid : ℚ
  transport : ℚ
  manufacturing : ℚ
deriving DecidableEq

/-- `ScoreBreakdown` (frontend types.ts). -/
structure ScoreBreakdown where
  material_impact : MaterialImpactBreakdown
  care_impact : CareImpactBreakdown
  origin_impact : OriginImpactBreakdown
deriving DecidableEq

/-- `ScoreResult` (spec §3; frontend `ScoreResponse` minus the echoed
product metadata). -/
structure ScoreResult where
  final_score : ℚ
  environmental_score : ℚ
  certification_bonus : ℚ
  breakdown : ScoreBreakdown
deriving DecidableEq

/-- The immutable reference snapshot (spec §4.1): the four tables. -/
structure ReferenceSnapshot where
  materials : List MaterialReference
  origins : List OriginReference
  care : List CareReference
  certifications : List CertificationReference
deriving DecidableEq

/-- Typed errors of the engine (spec §7). -/
inductive ScoreError where
  | UnknownReferenceKey (table : String) (key : String)
  | InvalidComposition (sum : ℚ)
deriving DecidableEq

instance : DecidableEq (Except ScoreError ScoreResult) := fun a b =>
  match a, b with
  | .error e1, .error e2 =>
    decidable_of_iff (e1 = e2)
      ⟨fun h => by rw [h], fun h => by injection h⟩
  | .ok r1, .ok r2 =>
    decidable_of_iff (r1 = r2)
      ⟨fun h => by rw [h], fun h => by injection h⟩
  | .error _, .ok _ => isFalse (fun h => by injection h)
  | .ok _, .error _ => isFalse (fun h => by injection h)

/-- Modelled from the spec: §4.1 `lookup(table, name)` for materials —
find the uniquely-named row, `none` if absent. -/
def lookupMaterial (tbl : List MaterialReference) (key : String) :
    Option MaterialReference :=
  tbl.find? (fun r => r.name == key)

/-- Modelled from the spec: §4.1 lookup for origins. -/
def lookupOrigin (tbl : List OriginReference) (key : String) :
    Option OriginReference :=
  tbl.find? (fun r => r.name == key)

/-- Modelled from the spec: §4.1 lookup for care instructions. -/
def lookupCare (tbl : List CareReference) (key : String) :
    Option CareReference :=
  tbl.find? (fun r => r.name == key)

/-- Modelled from the spec: §4.1 lookup for certifications. -/
def lookupCert (tbl : List CertificationReference) (key : String) :
    Option CertificationReference :=
  tbl.find? (fun r => r.name == key)

/-- `clamp(v, lo, hi)` as used by spec §4.5/§4.6. -/
def clamp (v lo hi : ℚ) : ℚ := min (max v lo) hi

/-- Modelled from the spec: §4.1 `indicatorRange` minimum — the least
value of indicator `f` across the whole table (0 for an empty table). -/
def tableMin {α : Type} (f : α → ℚ) : List α → ℚ
  | [] => 0
  | x :: xs => xs.foldl (fun acc y => min acc (f y)) (f x)

/-- Modelled from the spec: §4.1 `indicatorRange` maximum. -/
def tableMax {α : Type} (f : α → ℚ) : List α → ℚ
  | [] => 0
  | x :: xs => xs.foldl (fun acc y => max acc (f y)) (f x)

/-- Modelled from the spec: §4.5 Indicator Normalizer.
`if max == min: 0 else clamp(100 * (raw - min) / (max - min), 0, 100)`. -/
def normalize (raw minV maxV : ℚ) : ℚ :=
  if maxV = minV then 0
  else clamp (100 * (raw - minV) / (maxV - minV)) 0 100

/-- Normalize a raw value against indicator `f`'s whole-table range. -/
def normalizeOver {α : Type} (tbl : List α) (f : α → ℚ) (raw : ℚ) : ℚ :=
  normalize raw (tableMin f tbl) (tableMax f tbl)

/-- Sum of the composition percentages. -/
def sumPercent (ms : List MaterialInput) : ℚ :=
  (ms.map (fun m => m.percentage)).sum

/-- Composition tolerance (spec §3: 100 ± 0.01). -/
def tolerance : ℚ := 1 / 100

/-- Modelled from the spec: §7 `InvalidComposition` trigger — the
composition is valid iff the list is nonempty and the percentages sum to
100 within tolerance 0.01. -/
def validCompositionB (ms : List MaterialInput) : Bool :=
  !ms.isEmpty && decide (|sumPercent ms - 100| ≤ tolerance)

/-- Modelled from the spec: §4.2 — resolve each (name, percentage) entry
against the material table, failing with `UnknownReferenceKey` at the
first absent name. -/
def resolveMaterials (tbl : List MaterialReference) :
    List MaterialInput → Except ScoreError (List (ℚ × MaterialReference))
  | [] => .ok []
  | m :: ms =>
    match lookupMaterial tbl m.name with
    | none => .error (.UnknownReferenceKey "materials" m.name)
    | some r =>
      match resolveMaterials tbl ms with
      | .error e => .error e
      | .ok rest => .ok ((m.percentage, r) :: rest)

/-- Modelled from the spec: §4.2 raw indicator aggregation,
`raw[indicator] = Σ (percentage_i / 100) * reference(material_i).indicator`. -/
def weightedSum (f : MaterialReference → ℚ)
    (rs : List (ℚ × MaterialReference)) : ℚ :=
  (rs.map (fun pr => pr.1 / 100 * f pr.2)).sum

/-- Modelled from the spec: §4.2 output — the raw MaterialImpact vector
(carbon, water, energy, chemical), still in physical units. -/
def rawImpact (tbl : List MaterialReference) (ms : List MaterialInput) :
    Except ScoreError (ℚ × ℚ × ℚ × ℚ) :=
  match resolveMaterials tbl ms with
  | .error e => .error e
  | .ok rs =>
    .ok (weightedSum (fun r => r.carbon_kg_co2e) rs,
         weightedSum (fun r => r.water_l) rs,
         weightedSum (fun r => r.fossil_energy_mj) rs,
         weightedSum (fun r => r.chemical_impact) rs)

/-- Modelled from the spec: §4.6 step 5 — a certification slot contributes
its `score_bonus` fraction; an empty slot contributes 0; a named entry
absent from the table is `UnknownReferenceKey`. -/
def certBonus (tbl : List CertificationReference) :
    Option String → Except ScoreError ℚ
  | none => .ok 0
  | some n =>
    match lookupCert tbl n with
    | none => .error (.UnknownReferenceKey "certifications" n)
    | some c => .ok c.score_bonus

/-- Baseline category weight for materials (spec §4.6 step 3). -/
def wMaterial : ℚ := 1 / 2

/-- Baseline category weight for care (spec §4.6 step 3). -/
def wCare : ℚ := 1 / 4

/-- Baseline category weight for origin (spec §4.6 step 3). -/
def wOrigin : ℚ := 1 / 4

/-- Baseline certification-bonus cap in percentage points (spec §4.6 step 5). -/
def certCap : ℚ := 15

/-- Modelled from the spec: §4.6 Score Composer steps 1–6 on already
resolved inputs: normalize the ten indicators, average within category,
combine with the category weights, subtract from 100, add the capped
certification bonus and clamp to [0, 100]. -/
def composeScore (snap : ReferenceSnapshot)
    (rs : List (ℚ × MaterialReference)) (o : OriginReference)
    (c : CareReference) (bonusFrac : ℚ) : ScoreResult :=
  let nCo2 := normalizeOver snap.materials (fun r => r.carbon_kg_co2e)
    (weightedSum (fun r => r.carbon_kg_co2e) rs)
  let nWater := normalizeOver snap.materials (fun r => r.water_l)
    (weightedSum (fun r => r.water_l) rs)
  let nEnergy := normalizeOver snap.materials (fun r => r.fossil_energy_mj)
    (weightedSum (fun r => r.fossil_energy_mj) rs)
  let nChem := normalizeOver snap.materials (fun r => r.chemical_impact)
    (weightedSum (fun r => r.chemical_impact) rs)
  let cCo2 := normalizeOver snap.care (fun r => r.co2_kg) c.co2_kg
  let cWater := normalizeOver snap.care (fun r => r.water_use_l) c.water_use_l
  let cEnergy := normalizeOver snap.care (fun r => r.energy_use_mj) c.energy_use_mj
  let oGrid := normalizeOver snap.origins (fun r => r.energy_grid_intensity)
    o.energy_grid_intensity
  let oTransport := normalizeOver snap.origins (fun r => r.transport_impact)
    o.transport_impact
  let oManuf := normalizeOver snap.origins (fun r => r.manufacturing_impact)
    o.manufacturing_impact
  let matSub := (nCo2 + nWater + nEnergy + nChem) / 4
  let careSub := (cCo2 + cWater + cEnergy) / 3
  let origSub := (oGrid + oTransport + oManuf) / 3
  let aggregate := wMaterial * matSub + wCare * careSub + wOrigin * origSub
  let env := 100 - aggregate
  let bonusPts := min (100 * bonusFrac) certCap
  { final_score := clamp (env + bonusPts) 0 100
    environmental_score := env
    certification_bonus := bonusFrac
    breakdown :=
      { material_impact := ⟨nCo2, nWater, nEnergy, nChem⟩
        care_impact := ⟨cCo2, cWater, cEnergy⟩
        origin_impact := ⟨oGrid, oTransport, oManuf⟩ } }

/-- Modelled from the spec: §6 `score(ProductInput) -> ScoreResult | Error`,
the full pipeline — composition validation (§4.2), material/care/origin
resolution (§2 data-flow order), certification bonus, composition. -/
def score (snap : ReferenceSnapshot) (p : ProductInput) :
    Except ScoreError ScoreResult :=
  if validCompositionB p.materials then
    match resolveMaterials snap.materials p.materials with
    | .error e => .error e
    | .ok rs =>
      match lookupCare snap.care p.care_instruction with
      | none => .error (.UnknownReferenceKey "care" p.care_instruction)
      | some c =>
        match lookupOrigin snap.origins p.origin with
        | none => .error (.UnknownReferenceKey "origins" p.origin)
        | some o =>
          match certBonus snap.certifications p.certification1 with
          | .error e => .error e
          | .ok b1 =>
            match certBonus snap.certifications p.certification2 with
            | .error e => .error e
            | .ok b2 => .ok (composeScore snap rs o c (b1 + b2))
  else .error (.InvalidComposition (sumPercent p.materials))

/-! ## Frontend functions, embedded from the TypeScript source -/

/-- `getScoreColor` from ScoreGauge.tsx. -/
def getScoreColor (score : ℚ) : String :=
  if score ≥ 80 then "#10b981"
  else if score ≥ 60 then "#84cc16"
  else if score ≥ 40 then "#eab308"
  else if score ≥ 20 then "#f97316"
  else "#ef4444"

/-- `getScoreLabel` from ScoreGauge.tsx. -/
def getScoreLabel (score : ℚ) : String :=
  if score ≥ 80 then "Excellent"
  else if score ≥ 60 then "Good"
  else if score ≥ 40 then "Fair"
  else if score ≥ 20 then "Poor"
  else "Very Poor"

/-- `getScoreBadgeColor` from ProductCard.tsx. -/
def getScoreBadgeColor (score : ℚ) : String :=
  if score ≥ 80 then "bg-green-100 text-green-800"
  else if score ≥ 60 then "bg-lime-100 text-lime-800"
  else if score ≥ 40 then "bg-yellow-100 text-yellow-800"
  else if score ≥ 20 then "bg-orange-100 text-orange-800"
  else "bg-red-100 text-red-800"

/-- Initial `productMaterials` state in ScoreForm.tsx. -/
def initialMaterials : List MaterialInput := [⟨"", 100⟩]

/-- `addMaterial` from ScoreForm.tsx: append one entry whose name defaults
to the first reference material (or empty) with percentage 0. -/
def addMaterial (refs : List MaterialReference)
    (ms : List MaterialInput) : List MaterialInput :=
  ms ++ [⟨(match refs with | [] => "" | r :: _ => r.name), 0⟩]

/-- `removeMaterial` from ScoreForm.tsx: drop the entry at index `i`, but
only when more than one entry is present. -/
def removeMaterial (i : ℕ) (ms : List MaterialInput) : List MaterialInput :=
  if ms.length > 1 then
    ((ms.enum.filter (fun x => x.1 ≠ i)).map (fun x => x.2))
  else ms

/-- `updateMaterial` from ScoreForm.tsx restricted to one index: replace
the entry at index `i` (length-preserving copy-and-set). -/
def updateMaterial (i : ℕ) (m : MaterialInput)
    (ms : List MaterialInput) : List MaterialInput :=
  ms.set i m

/-- `loadReferenceData` effect in ScoreForm.tsx: when the material table is
nonempty, reset the rows to a single default row. -/
def resetMaterials (refs : List MaterialReference)
    (ms : List MaterialInput) : List MaterialInput :=
  match refs with
  | [] => ms
  | r :: _ => [⟨r.name, 100⟩]

/-- Reachable `productMaterials` states of the ScoreForm component. -/
inductive ReachableMaterials : List MaterialInput → Prop where
  | init : ReachableMaterials initialMaterials
  | add (refs : List MaterialReference) {ms : List MaterialInput} :
      ReachableMaterials ms → ReachableMaterials (addMaterial refs ms)
  | remove (i : ℕ) {ms : List MaterialInput} :
      ReachableMaterials ms → ReachableMaterials (removeMaterial i ms)
  | update (i : ℕ) (m : MaterialInput) {ms : List MaterialInput} :
      ReachableMaterials ms → ReachableMaterials (updateMaterial i m ms)
  | reset (refs : List MaterialReference) {ms : List MaterialInput} :
      ReachableMaterials ms → ReachableMaterials (resetMaterials refs ms)

/-! ## Concrete fixtures (spec §8 scenarios) for witnesses -/

/-- Scenario material "CottonX" (spec §8): carbon 2, water 100, energy 10,
chemical 1. -/
def matCottonX : MaterialReference := ⟨"CottonX", "Natural", 2, 100, 10, 1, ""⟩

/-- Scenario material "WoolY" (spec §8), the per-indicator maximum. -/
def matWoolY : MaterialReference := ⟨"WoolY", "Natural", 10, 200, 20, 2, ""⟩

/-- Scenario origin "RegionA" (spec §8), sole origin entry. -/
def origRegionA : OriginReference := ⟨"RegionA", 5, 3, 7, ""⟩

/-- Scenario care regimen "Wash1" (spec §8), sole care entry. -/
def careWash1 : CareReference := ⟨"Wash1", 4, 50, 2, ""⟩

/-- Scenario certification "CertA" (spec §8) with score_bonus 0.10. -/
def certCertA : CertificationReference := ⟨"CertA", "Organic", 1 / 10, ""⟩

/-- Witness snapshot: the two scenario materials, single origin, care and
certification rows. -/
def snapW : ReferenceSnapshot :=
  ⟨[matCottonX, matWoolY], [origRegionA], [careWash1], [certCertA]⟩

/-- 100% CottonX product, no certifications. -/
def prodCotton : ProductInput :=
  { product_name := "A", materials := [⟨"CottonX", 100⟩],
    origin := "RegionA", care_instruction := "Wash1" }

/-- 100% WoolY product, no certifications. -/
def prodWool : ProductInput :=
  { product_name := "B", materials := [⟨"WoolY", 100⟩],
    origin := "RegionA", care_instruction := "Wash1" }

/-- 100% WoolY product with certification "CertA" in slot 1. -/
def prodWoolCert : ProductInput := { prodWool with certification1 := some "CertA" }

/-- The 50% CottonX / 50% WoolY product of spec §8's second scenario. -/
def prodMix : ProductInput :=
  { product_name := "Mix", materials := [⟨"CottonX", 50⟩, ⟨"WoolY", 50⟩],
    origin := "RegionA", care_instruction := "Wash1" }

/-- The mix product with its two material rows swapped. -/
def prodMixSwapped : ProductInput :=
  { prodMix with materials := [⟨"WoolY", 50⟩, ⟨"CottonX", 50⟩] }

/-- Expected result for `prodCotton`: every indicator at its table minimum. -/
def resCotton : ScoreResult := ⟨100, 100, 0, ⟨⟨0, 0, 0, 0⟩, ⟨0, 0, 0⟩, ⟨0, 0, 0⟩⟩⟩

/-- Expected result for `prodWool`: every material indicator at its maximum. -/
def resWool : ScoreResult := ⟨50, 50, 0, ⟨⟨100, 100, 100, 100⟩, ⟨0, 0, 0⟩, ⟨0, 0, 0⟩⟩⟩

/-- Expected result for `prodWoolCert`: `resWool` plus 10 bonus points. -/
def resWoolCert : ScoreResult :=
  ⟨60, 50, 1 / 10, ⟨⟨100, 100, 100, 100⟩, ⟨0, 0, 0⟩, ⟨0, 0, 0⟩⟩⟩

/-- Expected result for `prodMix`: each material indicator halfway. -/
def resMix : ScoreResult := ⟨75, 75, 0, ⟨⟨50, 50, 50, 50⟩, ⟨0, 0, 0⟩, ⟨0, 0, 0⟩⟩⟩

/-- An empty-composition product that also names an absent origin. -/
def prodEmptyBadOrigin : ProductInput :=
  { product_name := "E", materials := [],
    origin := "Nowhere", care_instruction := "Wash1" }

/-- A valid-composition product naming an absent origin. -/
def prodBadOrigin : ProductInput :=
  { product_name := "O", materials := [⟨"CottonX", 100⟩],
    origin := "Nowhere", care_instruction := "Wash1" }

/-- Decision helper: is the outcome an `UnknownReferenceKey` error? -/
def isUnknownKeyError : Except ScoreError ScoreResult → Bool
  | .error (.UnknownReferenceKey _ _) => true
  | _ => false

/-- Some name referenced by the product is absent from its table. -/
def missingRef (snap : ReferenceSnapshot) (p : ProductInput) : Prop :=
  (∃ m ∈ p.materials, lookupMaterial snap.materials m.name = none) ∨
  lookupCare snap.care p.care_instruction = none ∨
  lookupOrigin snap.origins p.origin = none ∨
  (∃ n, (p.certification1 = some n ∨ p.certification2 = some n) ∧
    lookupCert snap.certifications n = none)

/-- The pair (table, key) names a reference that the product actually uses
and that is absent from that table — i.e. a genuinely offending lookup. -/
def offendingRef (snap : ReferenceSnapshot) (p : ProductInput)
    (t k : String) : Prop :=
  (t = "materials" ∧ (∃ m ∈ p.materials, m.name = k) ∧
    lookupMaterial snap.materials k = none) ∨
  (t = "care" ∧ k = p.care_instruction ∧ lookupCare snap.care k = none) ∨
  (t = "origins" ∧ k = p.origin ∧ lookupOrigin snap.origins k = none) ∨
  (t = "certifications" ∧
    (p.certification1 = some k ∨ p.certification2 = some k) ∧
    lookupCert snap.certifications k = none)

/-! ## General lemmas about the numeric kernel -/

lemma clamp_le_hi (v lo hi : ℚ) : clamp v lo hi ≤ hi :=
  min_le_right _ _

lemma lo_le_clamp (v lo hi : ℚ) (h : lo ≤ hi) : lo ≤ clamp v lo hi :=
  le_min (le_max_right _ _) h

lemma clamp_mono (lo hi a b : ℚ) (h : a ≤ b) :
    clamp a lo hi ≤ clamp b lo hi :=
  min_le_min (max_le_max h le_rfl) le_rfl

lemma foldl_min_le_foldl_max {α : Type} (f : α → ℚ) (xs : List α) :
    ∀ a b : ℚ, a ≤ b →
      xs.foldl (fun acc y => min acc (f y)) a ≤
        xs.foldl (fun acc y => max acc (f y)) b := by
  induction xs with
  | nil => intro a b h; simpa using h
  | cons x xs ih =>
    intro a b h
    exact ih _ _ (le_trans (min_le_left _ _) (le_trans h (le_max_left _ _)))

lemma tableMin_le_tableMax {α : Type} (f : α → ℚ) (tbl : List α) :
    tableMin f tbl ≤ tableMax f tbl := by
  cases tbl with
  | nil => simp [tableMin, tableMax]
  | cons x xs => exact foldl_min_le_foldl_max f xs _ _ le_rfl

lemma normalize_nonneg (raw lo hi : ℚ) : 0 ≤ normalize raw lo hi := by
  unfold normalize
  split
  · exact le_rfl
  · exact lo_le_clamp _ 0 100 (by norm_num)

lemma normalize_le_100 (raw lo hi : ℚ) : normalize raw lo hi ≤ 100 := by
  unfold normalize
  split
  · norm_num
  · exact clamp_le_hi _ 0 100

lemma normalize_mono (lo hi a b : ℚ) (hlh : lo ≤ hi) (hab : a ≤ b) :
    normalize a lo hi ≤ normalize b lo hi := by
  unfold normalize
  split
  · exact le_rfl
  · rename_i hne
    have hpos : 0 < hi - lo := sub_pos.mpr (lt_of_le_of_ne hlh (Ne.symm hne))
    apply clamp_mono
    apply div_le_div_of_nonneg_right _ hpos.le
    linarith

lemma normalizeOver_nonneg {α : Type} (tbl : List α) (f : α → ℚ) (raw : ℚ) :
    0 ≤ normalizeOver tbl f raw :=
  normalize_nonneg _ _ _

lemma normalizeOver_mono {α : Type} (tbl : List α) (f : α → ℚ) (a b : ℚ)
    (hab : a ≤ b) : normalizeOver tbl f a ≤ normalizeOver tbl f b :=
  normalize_mono _ _ _ _ (tableMin_le_tableMax f tbl) hab

/-! ## Lemmas about material resolution -/

lemma resolveMaterials_ok_of (tbl : List MaterialReference)
    (ref : MaterialInput → MaterialReference) :
    ∀ ms : List MaterialInput,
      (∀ m ∈ ms, lookupMaterial tbl m.name = some (ref m)) →
      resolveMaterials tbl ms = .ok (ms.map (fun m => (m.percentage, ref m))) := by
  intro ms
  induction ms with
  | nil => intro _; rfl
  | cons m ms ih =>
    intro h
    have hm := h m (List.mem_cons_self m ms)
    have hrest := ih (fun x hx => h x (List.mem_cons_of_mem m hx))
    simp [resolveMaterials, hm, hrest]

lemma resolveMaterials_ok_lookup (tbl : List MaterialReference) :
    ∀ (ms : List MaterialInput) (rs : List (ℚ × MaterialReference)),
      resolveMaterials tbl ms = .ok rs →
      ∀ m ∈ ms, lookupMaterial tbl m.name = some (lookupMaterial tbl m.name).iget := by
  intro ms
  induction ms with
  | nil => intro rs _ m hm; cases hm
  | cons a ms ih =>
    intro rs h m hm
    rw [resolveMaterials] at h
    cases hl : lookupMaterial tbl a.name with
    | none => rw [hl] at h; cases h
    | some r =>
      rw [hl] at h
      cases hrec : resolveMaterials tbl ms with
      | error e => rw [hrec] at h; cases h
      | ok rest =>
        cases hm with
        | head => rw [hl]
        | tail _ hm2 => exact ih rest hrec m hm2

lemma resolveMaterials_ok_eq (tbl : List MaterialReference) :
    ∀ (ms : List MaterialInput) (rs : List (ℚ × MaterialReference)),
      resolveMaterials tbl ms = .ok rs →
      rs = ms.map (fun m => (m.percentage, (lookupMaterial tbl m.name).iget)) := by
  intro ms rs h
  have hall := resolveMaterials_ok_lookup tbl ms rs h
  have := resolveMaterials_ok_of tbl
    (fun m => (lookupMaterial tbl m.name).iget) ms hall
  rw [h] at this
  exact (Except.ok.injEq _ _ ▸ this : rs = _)

lemma resolveMaterials_error_shape (tbl : List MaterialReference) :
    ∀ (ms : List MaterialInput) (e : ScoreError),
      resolveMaterials tbl ms = .error e →
      ∃ k, e = .UnknownReferenceKey "materials" k ∧
        (∃ m ∈ ms, m.name = k) ∧ lookupMaterial tbl k = none := by
  intro ms
  induction ms with
  | nil => intro e h; cases h
  | cons a ms ih =>
    intro e h
    rw [resolveMaterials] at h
    cases hl : lookupMaterial tbl a.name with
    | none =>
      rw [hl] at h
      injection h with h2
      exact ⟨a.name, h2.symm, ⟨a, List.mem_cons_self a ms, rfl⟩, hl⟩
    | some r =>
      rw [hl] at h
      cases hrec : resolveMaterials tbl ms with
      | error e2 =>
        rw [hrec] at h
        injection h with h2
        obtain ⟨k, hk, ⟨m, hm, hmk⟩, hnone⟩ := ih e2 hrec
        exact ⟨k, h2 ▸ hk, ⟨m, List.mem_cons_of_mem a hm, hmk⟩, hnone⟩
      | ok rest => rw [hrec] at h; cases h

/-! ## Lemmas about the certification bonus -/

lemma certBonus_error_shape (tbl : List CertificationReference)
    (slot : Option String) (e : ScoreError)
    (h : certBonus tbl slot = .error e) :
    ∃ n, slot = some n ∧ lookupCert tbl n = none ∧
      e = .UnknownReferenceKey "certifications" n := by
  cases slot with
  | none => cases h
  | some n =>
    rw [certBonus] at h
    cases hl : lookupCert tbl n with
    | none =>
      rw [hl] at h
      injection h with h2
      exact ⟨n, rfl, hl, h2.symm⟩
    | some c => rw [hl] at h; cases h

lemma certBonus_none (tbl : List CertificationReference) :
    certBonus tbl none = .ok 0 := rfl

lemma certBonus_slot_none (tbl : List CertificationReference)
    (slot : Option String) (h : slot = none) : certBonus tbl slot = .ok 0 := by
  rw [h]; exact certBonus_none tbl

lemma certBonus_some (tbl : List CertificationReference) (n : String)
    (c : CertificationReference) (h : lookupCert tbl n = some c) :
    certBonus tbl (some n) = .ok c.score_bonus := by
  rw [certBonus, h]

/-! ## Inversion of the scoring pipeline -/

lemma score_ok_iff (snap : ReferenceSnapshot) (p : ProductInput)
    (res : ScoreResult) :
    score snap p = .ok res ↔
      validCompositionB p.materials = true ∧
      ∃ rs c o b1 b2,
        resolveMaterials snap.materials p.materials = .ok rs ∧
        lookupCare snap.care p.care_instruction = some c ∧
        lookupOrigin snap.origins p.origin = some o ∧
        certBonus snap.certifications p.certification1 = .ok b1 ∧
        certBonus snap.certifications p.certification2 = .ok b2 ∧
        res = composeScore snap rs o c (b1 + b2) := by
  constructor
  · intro h
    rw [score] at h
    by_cases hv : validCompositionB p.materials = true
    · refine ⟨hv, ?_⟩
      rw [if_pos hv] at h
      cases hres : resolveMaterials snap.materials p.materials with
      | error e => rw [hres] at h; cases h
      | ok rs =>
        rw [hres] at h
        cases hcare : lookupCare snap.care p.care_instruction with
        | none => rw [hcare] at h; cases h
        | some c =>
          rw [hcare] at h
          cases horig : lookupOrigin snap.origins p.origin with
          | none => rw [horig] at h; cases h
          | some o =>
            rw [horig] at h
            cases hb1 : certBonus snap.certifications p.certification1 with
            | error e => rw [hb1] at h; cases h
            | ok b1 =>
              rw [hb1] at h
              cases hb2 : certBonus snap.certifications p.certification2 with
              | error e => rw [hb2] at h; cases h
              | ok b2 =>
                rw [hb2] at h
                injection h with h2
                exact ⟨rs, c, o, b1, b2, rfl, rfl, rfl, rfl, rfl, h2.symm⟩
    · rw [if_neg hv] at h; cases h
  · rintro ⟨hv, rs, c, o, b1, b2, hres, hcare, horig, hb1, hb2, hr⟩
    rw [score, if_pos hv, hres, hcare, horig, hb1, hb2, hr]

/-! ## Evaluation of the pipeline on the concrete fixtures -/

lemma lookupCare_snapW (p : ProductInput) (h : p.care_instruction = "Wash1") :
    lookupCare snapW.care p.care_instruction = some careWash1 := by
  rw [h]; rfl

lemma lookupOrigin_snapW (p : ProductInput) (h : p.origin = "RegionA") :
    lookupOrigin snapW.origins p.origin = some origRegionA := by
  rw [h]; rfl

lemma scoreCotton_eval : score snapW prodCotton = .ok resCotton := by
  have hvalid : validCompositionB prodCotton.materials = true := by
    simp [validCompositionB, sumPercent, tolerance, prodCotton]
  have hres : resolveMaterials snapW.materials prodCotton.materials =
      .ok [(100, matCottonX)] := by
    simp [resolveMaterials, lookupMaterial, snapW, prodCotton, matCottonX,
      matWoolY, List.find?]
  rw [score, if_pos hvalid, hres,
    lookupCare_snapW prodCotton rfl, lookupOrigin_snapW prodCotton rfl,
    certBonus_slot_none _ prodCotton.certification1 rfl,
    certBonus_slot_none _ prodCotton.certification2 rfl]
  norm_num [composeScore, normalizeOver, normalize, clamp, tableMin, tableMax,
    weightedSum, wMaterial, wCare, wOrigin, certCap, snapW, matCottonX,
    matWoolY, origRegionA, careWash1, resCotton, min_def, max_def]

lemma scoreWool_eval : score snapW prodWool = .ok resWool := by
  have hvalid : validCompositionB prodWool.materials = true := by
    simp [validCompositionB, sumPercent, tolerance, prodWool]
  have hres : resolveMaterials snapW.materials prodWool.materials =
      .ok [(100, matWoolY)] := by
    simp [resolveMaterials, lookupMaterial, snapW, prodWool, matCottonX,
      matWoolY, List.find?]
  rw [score, if_pos hvalid, hres,
    lookupCare_snapW prodWool rfl, lookupOrigin_snapW prodWool rfl,
    certBonus_slot_none _ prodWool.certification1 rfl,
    certBonus_slot_none _ prodWool.certification2 rfl]
  norm_num [composeScore, normalizeOver, normalize, clamp, tableMin, tableMax,
    weightedSum, wMaterial, wCare, wOrigin, certCap, snapW, matCottonX,
    matWoolY, origRegionA, careWash1, resWool, min_def, max_def]

lemma scoreWoolCert_eval : score snapW prodWoolCert = .ok resWoolCert := by
  have hvalid : validCompositionB prodWoolCert.materials = true := by
    simp [validCompositionB, sumPercent, tolerance, prodWoolCert, prodWool]
  have hres : resolveMaterials snapW.materials prodWoolCert.materials =
      .ok [(100, matWoolY)] := by
    simp [resolveMaterials, lookupMaterial, snapW, prodWoolCert, prodWool,
      matCottonX, matWoolY, List.find?]
  have hc1 : certBonus snapW.certifications prodWoolCert.certification1 =
      .ok (1 / 10) := by
    simp [certBonus, lookupCert, snapW, prodWoolCert, prodWool, certCertA,
      List.find?]
  rw [score, if_pos hvalid, hres,
    lookupCare_snapW prodWoolCert rfl, lookupOrigin_snapW prodWoolCert rfl,
    hc1, certBonus_slot_none _ prodWoolCert.certification2 rfl]
  norm_num [composeScore, normalizeOver, normalize, clamp, tableMin, tableMax,
    weightedSum, wMaterial, wCare, wOrigin, certCap, snapW, matCottonX,
    matWoolY, origRegionA, careWash1, resWoolCert, min_def, max_def]

lemma resolveMix_eval : resolveMaterials snapW.materials prodMix.materials =
    .ok [(50, matCottonX), (50, matWoolY)] := by
  simp [resolveMaterials, lookupMaterial, snapW, prodMix, matCottonX,
    matWoolY, List.find?]

lemma scoreMix_eval : score snapW prodMix = .ok resMix := by
  have hvalid : validCompositionB prodMix.materials = true := by
    simp [validCompositionB, sumPercent, tolerance, prodMix]
    norm_num
  rw [score, if_pos hvalid, resolveMix_eval,
    lookupCare_snapW prodMix rfl, lookupOrigin_snapW prodMix rfl,
    certBonus_slot_none _ prodMix.certification1 rfl,
    certBonus_slot_none _ prodMix.certification2 rfl]
  norm_num [composeScore, normalizeOver, normalize, clamp, tableMin, tableMax,
    weightedSum, wMaterial, wCare, wOrigin, certCap, snapW, matCottonX,
    matWoolY, origRegionA, careWash1, resMix, min_def, max_def]

lemma scoreEmptyBadOrigin_eval :
    score snapW prodEmptyBadOrigin = .error (.InvalidComposition 0) := by
  have hvalid : ¬ validCompositionB prodEmptyBadOrigin.materials = true := by
    simp [validCompositionB, prodEmptyBadOrigin]
  rw [score, if_neg hvalid]
  norm_num [sumPercent, prodEmptyBadOrigin]

lemma scoreBadOrigin_eval :
    score snapW prodBadOrigin = .error (.UnknownReferenceKey "origins" "Nowhere") := by
  have hvalid : validCompositionB prodBadOrigin.materials = true := by
    simp [validCompositionB, sumPercent, tolerance, prodBadOrigin]
  have hres : resolveMaterials snapW.materials prodBadOrigin.materials =
      .ok [(100, matCottonX)] := by
    simp [resolveMaterials, lookupMaterial, snapW, prodBadOrigin, matCottonX,
      matWoolY, List.find?]
  have horig : lookupOrigin snapW.origins prodBadOrigin.origin = none := by
    simp [lookupOrigin, snapW, prodBadOrigin, origRegionA, List.find?]
  rw [score, if_pos hvalid, hres, lookupCare_snapW prodBadOrigin rfl, horig]
  exact rfl

/-! ## Structural lemmas about the composer and the error paths -/

lemma composeScore_final_bounds (snap : ReferenceSnapshot)
    (rs : List (ℚ × MaterialReference)) (o : OriginReference)
    (c : CareReference) (b : ℚ) :
    0 ≤ (composeScore snap rs o c b).final_score ∧
      (composeScore snap rs o c b).final_score ≤ 100 := by
  refine ⟨lo_le_clamp _ 0 100 (by norm_num), clamp_le_hi _ 0 100⟩

lemma composeScore_env_mono (snap : ReferenceSnapshot)
    (rs1 rs2 : List (ℚ × MaterialReference)) (o : OriginReference)
    (c : CareReference) (b1 b2 : ℚ)
    (hc : weightedSum (fun r => r.carbon_kg_co2e) rs1 ≤
      weightedSum (fun r => r.carbon_kg_co2e) rs2)
    (hw : weightedSum (fun r => r.water_l) rs1 ≤
      weightedSum (fun r => r.water_l) rs2)
    (he : weightedSum (fun r => r.fossil_energy_mj) rs1 ≤
      weightedSum (fun r => r.fossil_energy_mj) rs2)
    (hch : weightedSum (fun r => r.chemical_impact) rs1 ≤
      weightedSum (fun r => r.chemical_impact) rs2) :
    (composeScore snap rs2 o c b2).environmental_score ≤
      (composeScore snap rs1 o c b1).environmental_score := by
  have h1 := normalizeOver_mono snap.materials (fun r => r.carbon_kg_co2e) _ _ hc
  have h2 := normalizeOver_mono snap.materials (fun r => r.water_l) _ _ hw
  have h3 := normalizeOver_mono snap.materials (fun r => r.fossil_energy_mj) _ _ he
  have h4 := normalizeOver_mono snap.materials (fun r => r.chemical_impact) _ _ hch
  simp only [composeScore, wMaterial, wCare, wOrigin]
  linarith

lemma composeScore_final_mono_bonus (snap : ReferenceSnapshot)
    (rs : List (ℚ × MaterialReference)) (o : OriginReference)
    (c : CareReference) (b1 b2 : ℚ) (h : b1 ≤ b2) :
    (composeScore snap rs o c b1).final_score ≤
      (composeScore snap rs o c b2).final_score := by
  simp only [composeScore]
  apply clamp_mono
  have : min (100 * b1) certCap ≤ min (100 * b2) certCap :=
    min_le_min (by linarith) le_rfl
  linarith

lemma validCompositionB_false_iff (ms : List MaterialInput) :
    validCompositionB ms = false ↔
      ms = [] ∨ tolerance < |sumPercent ms - 100| := by
  simp [validCompositionB, List.isEmpty_iff, not_le, Decidable.imp_iff_not_or]

lemma score_error_cases (snap : ReferenceSnapshot) (p : ProductInput)
    (e : ScoreError) (h : score snap p = .error e) :
    (validCompositionB p.materials = false ∧
      e = .InvalidComposition (sumPercent p.materials)) ∨
    (validCompositionB p.materials = true ∧ ∃ t k, e = .UnknownReferenceKey t k) := by
  rw [score] at h
  by_cases hv : validCompositionB p.materials = true
  · right
    refine ⟨hv, ?_⟩
    rw [if_pos hv] at h
    cases hres : resolveMaterials snap.materials p.materials with
    | error e2 =>
      rw [hres] at h
      injection h with h2
      obtain ⟨k, hk, _, _⟩ := resolveMaterials_error_shape snap.materials _ _ hres
      exact ⟨"materials", k, h2 ▸ hk⟩
    | ok rs =>
      rw [hres] at h
      cases hcare : lookupCare snap.care p.care_instruction with
      | none =>
        rw [hcare] at h
        injection h with h2
        exact ⟨"care", p.care_instruction, h2.symm⟩
      | some c =>
        rw [hcare] at h
        cases horig : lookupOrigin snap.origins p.origin with
        | none =>
          rw [horig] at h
          injection h with h2
          exact ⟨"origins", p.origin, h2.symm⟩
        | some o =>
          rw [horig] at h
          cases hb1 : certBonus snap.certifications p.certification1 with
          | error e2 =>
            rw [hb1] at h
            injection h with h2
            obtain ⟨n, _, _, hn⟩ := certBonus_error_shape _ _ _ hb1
            exact ⟨"certifications", n, h2 ▸ hn⟩
          | ok b1 =>
            rw [hb1] at h
            cases hb2 : certBonus snap.certifications p.certification2 with
            | error e2 =>
              rw [hb2] at h
              injection h with h2
              obtain ⟨n, _, _, hn⟩ := certBonus_error_shape _ _ _ hb2
              exact ⟨"certifications", n, h2 ▸ hn⟩
            | ok b2 => rw [hb2] at h; cases h
  · left
    rw [if_neg hv] at h
    injection h with h2
    exact ⟨Bool.not_eq_true _ ▸ hv, h2.symm⟩

/-! ## Lemmas about the ScoreForm materials-list operations -/

lemma filter_enumFrom_of_lt {α : Type} (l : List α) :
    ∀ n i : ℕ, i < n →
      (List.enumFrom n l).filter (fun x => x.1 ≠ i) = List.enumFrom n l := by
  induction l with
  | nil => intro n i _; rfl
  | cons a l ih =>
    intro n i hlt
    rw [List.enumFrom_cons, List.filter_cons]
    rw [if_pos (by simpa using Nat.ne_of_gt hlt)]
    rw [ih (n + 1) i (Nat.lt_succ_of_lt hlt)]

lemma length_filter_enumFrom {α : Type} (l : List α) :
    ∀ n i : ℕ,
      l.length - 1 ≤ ((List.enumFrom n l).filter (fun x => x.1 ≠ i)).length := by
  induction l with
  | nil => intro n i; simp
  | cons a l ih =>
    intro n i
    rw [List.enumFrom_cons, List.filter_cons]
    by_cases hni : n = i
    · rw [if_neg (by simpa using hni)]
      rw [filter_enumFrom_of_lt l (n + 1) i (hni ▸ Nat.lt_succ_self n)]
      simp
    · rw [if_pos (by simpa using hni)]
      have := ih (n + 1) i
      simp only [List.length_cons]
      omega

lemma one_le_length_removeMaterial (i : ℕ) (ms : List MaterialInput)
    (h : 1 ≤ ms.length) : 1 ≤ (removeMaterial i ms).length := by
  rw [removeMaterial]
  by_cases hlen : ms.length > 1
  · rw [if_pos hlen]
    rw [List.length_map]
    have hbound := length_filter_enumFrom ms 0 i
    have henum : ms.enum = List.enumFrom 0 ms := rfl
    rw [henum]
    omega
  · rw [if_neg hlen]
    exact h

/-! ## Claim theorems -/

/-- C1: for every valid ProductInput scored against any reference snapshot,
the final_score of the resulting ScoreResult lies in [0, 100], because the
composer's last step clamps EnvironmentalScore + CertificationBonus. -/
theorem final_score_in_unit_range (snap : ReferenceSnapshot) (p : ProductInput)
    (res : ScoreResult) (h : score snap p = .ok res) :
    0 ≤ res.final_score ∧ res.final_score ≤ 100 := by
  obtain ⟨-, rs, c, o, b1, b2, -, -, -, -, -, hr⟩ := (score_ok_iff snap p res).mp h
  rw [hr]
  exact composeScore_final_bounds snap rs o c (b1 + b2)

/-- Witness for C1 at the concrete 100%-CottonX product. -/
theorem final_score_in_unit_range_witness :
    0 ≤ resCotton.final_score ∧ resCotton.final_score ≤ 100 :=
  final_score_in_unit_range snapW prodCotton resCotton scoreCotton_eval

/-- C2: `score` fails with InvalidComposition exactly when the materials
list is empty or the percentage sum differs from 100 by more than the
tolerance 0.01; no ScoreResult is produced in that case (the outcome is
the error, never an `ok`). -/
theorem invalidComposition_iff (snap : ReferenceSnapshot) (p : ProductInput) :
    (∃ s, score snap p = .error (.InvalidComposition s)) ↔
      (p.materials = [] ∨ tolerance < |sumPercent p.materials - 100|) := by
  constructor
  · rintro ⟨s, hs⟩
    rcases score_error_cases snap p _ hs with ⟨hv, -⟩ | ⟨-, t, k, hk⟩
    · exact (validCompositionB_false_iff p.materials).mp hv
    · simp at hk
  · intro hrhs
    have hv : validCompositionB p.materials = false :=
      (validCompositionB_false_iff p.materials).mpr hrhs
    exact ⟨sumPercent p.materials, by rw [score, if_neg (by simp [hv])]⟩

/-- C4: `normalize` matches the piecewise spec: 0 on a degenerate range,
otherwise the clamped min–max rescaling; for min < max the endpoints map
to badness 0 and 100, and the result always lies in [0, 100]. -/
theorem normalize_piecewise_spec (raw lo hi : ℚ) :
    (hi = lo → normalize raw lo hi = 0) ∧
    (hi ≠ lo → normalize raw lo hi = clamp (100 * (raw - lo) / (hi - lo)) 0 100) ∧
    (lo < hi → normalize lo lo hi = 0 ∧ normalize hi lo hi = 100) ∧
    0 ≤ normalize raw lo hi ∧ normalize raw lo hi ≤ 100 := by
  refine ⟨fun h => by rw [normalize, if_pos h],
          fun h => by rw [normalize, if_neg h],
          fun h => ⟨?_, ?_⟩,
          normalize_nonneg raw lo hi, normalize_le_100 raw lo hi⟩
  · rw [normalize, if_neg (ne_of_gt h)]
    norm_num [clamp]
  · rw [normalize, if_neg (ne_of_gt h)]
    rw [mul_div_assoc, div_self (by linarith : hi - lo ≠ 0), mul_one]
    norm_num [clamp]

/-- Witness for C4 at concrete ranges: a degenerate range, the clamp form,
and the two boundary values on the range [2, 10]. -/
theorem normalize_piecewise_spec_witness :
    normalize 7 3 3 = 0 ∧
    normalize 6 2 10 = clamp (100 * (6 - 2) / (10 - 2)) 0 100 ∧
    (normalize 2 2 10 = 0 ∧ normalize 10 2 10 = 100) :=
  ⟨(normalize_piecewise_spec 7 3 3).1 rfl,
   (normalize_piecewise_spec 6 2 10).2.1 (by norm_num),
   (normalize_piecewise_spec 2 2 10).2.2.1 (by norm_num)⟩

/-- C8: in the two-material scenario (CottonX carbon 2, WoolY carbon 10)
the 50/50 product aggregates raw carbon 6 and its reported
breakdown.material_impact.co2 equals 100*(6-2)/(10-2) = 50. -/
theorem mix_scenario_co2 :
    resolveMaterials snapW.materials prodMix.materials =
      .ok [(50, matCottonX), (50, matWoolY)] ∧
    weightedSum (fun r => r.carbon_kg_co2e) [(50, matCottonX), (50, matWoolY)] = 6 ∧
    score snapW prodMix = .ok resMix ∧
    resMix.breakdown.material_impact.co2 = 100 * (6 - 2) / (10 - 2) := by
  refine ⟨resolveMix_eval, ?_, scoreMix_eval, ?_⟩
  · norm_num [weightedSum, matCottonX, matWoolY]
  · norm_num [resMix]

/-- C9: every reachable state of the ScoreForm materials list (initial
state, addMaterial, removeMaterial, updateMaterial, reference reset) has
at least one material row. -/
theorem scoreForm_materials_nonempty (ms : List MaterialInput)
    (h : ReachableMaterials ms) : 1 ≤ ms.length := by
  induction h with
  | init => norm_num [initialMaterials]
  | add refs h ih => simp only [addMaterial, List.length_append]; omega
  | remove i h ih => exact one_le_length_removeMaterial i _ ih
  | update i m h ih => simpa only [updateMaterial, List.length_set] using ih
  | reset refs h ih =>
    cases refs with
    | nil => exact ih
    | cons r rest => norm_num [resetMaterials]

/-- Witness for C9 at the initial form state. -/
theorem scoreForm_materials_nonempty_witness : 1 ≤ initialMaterials.length :=
  scoreForm_materials_nonempty initialMaterials ReachableMaterials.init

/-- C10: getScoreColor, getScoreLabel and getScoreBadgeColor partition
scores by the same thresholds 80/60/40/20, so the gauge color, the label
and the card badge color always agree band by band. -/
theorem score_bands_agree (s : ℚ) :
    (getScoreColor s = "#10b981" ↔ getScoreLabel s = "Excellent") ∧
    (getScoreColor s = "#84cc16" ↔ getScoreLabel s = "Good") ∧
    (getScoreColor s = "#eab308" ↔ getScoreLabel s = "Fair") ∧
    (getScoreColor s = "#f97316" ↔ getScoreLabel s = "Poor") ∧
    (getScoreColor s = "#ef4444" ↔ getScoreLabel s = "Very Poor") ∧
    (getScoreBadgeColor s = "bg-green-100 text-green-800" ↔
      getScoreLabel s = "Excellent") ∧
    (getScoreBadgeColor s = "bg-lime-100 text-lime-800" ↔
      getScoreLabel s = "Good") ∧
    (getScoreBadgeColor s = "bg-yellow-100 text-yellow-800" ↔
      getScoreLabel s = "Fair") ∧
    (getScoreBadgeColor s = "bg-orange-100 text-orange-800" ↔
      getScoreLabel s = "Poor") ∧
    (getScoreBadgeColor s = "bg-red-100 text-red-800" ↔
      getScoreLabel s = "Very Poor") := by
  unfold getScoreColor getScoreLabel getScoreBadgeColor
  split_ifs <;>
    refine ⟨?_, ?_, ?_, ?_, ?_, ?_, ?_, ?_, ?_, ?_⟩ <;> decide

/-- C3 counterexample: a product whose origin "Nowhere" is absent from the
origin table but whose materials list is empty fails with
InvalidComposition, not with UnknownReferenceKey — composition validation
runs first (spec §4.2), so the claim as universally stated is false. -/
theorem unknownReferenceKey_counterexample :
    lookupOrigin snapW.origins prodEmptyBadOrigin.origin = none ∧
    score snapW prodEmptyBadOrigin = .error (.InvalidComposition 0) ∧
    isUnknownKeyError (score snapW prodEmptyBadOrigin) = false := by
  refine ⟨?_, scoreEmptyBadOrigin_eval, ?_⟩
  · simp [lookupOrigin, snapW, prodEmptyBadOrigin, origRegionA, List.find?]
  · rw [scoreEmptyBadOrigin_eval]; rfl

/-- C3 (amended): for every ProductInput with a valid composition whose
material, origin, care, or certification name is absent from its table,
`score` fails with an UnknownReferenceKey naming a genuinely offending
table and key, and produces no ScoreResult. -/
theorem unknownReferenceKey_amended (snap : ReferenceSnapshot)
    (p : ProductInput) (hv : validCompositionB p.materials = true)
    (hm : missingRef snap p) :
    ∃ t k, score snap p = .error (.UnknownReferenceKey t k) ∧
      offendingRef snap p t k := by
  rw [score, if_pos hv]
  cases hres : resolveMaterials snap.materials p.materials with
  | error e =>
    obtain ⟨k, hk, hmem, hnone⟩ := resolveMaterials_error_shape snap.materials _ _ hres
    refine ⟨"materials", k, ?_, Or.inl ⟨rfl, hmem, hnone⟩⟩
    rw [hk]
  | ok rs =>
    cases hcare : lookupCare snap.care p.care_instruction with
    | none =>
      exact ⟨"care", p.care_instruction, rfl,
        Or.inr (Or.inl ⟨rfl, rfl, hcare⟩)⟩
    | some c =>
      cases horig : lookupOrigin snap.origins p.origin with
      | none =>
        exact ⟨"origins", p.origin, rfl,
          Or.inr (Or.inr (Or.inl ⟨rfl, rfl, horig⟩))⟩
      | some o =>
        cases hb1 : certBonus snap.certifications p.certification1 with
        | error e =>
          obtain ⟨n, hslot, hnone, hne⟩ := certBonus_error_shape _ _ _ hb1
          refine ⟨"certifications", n, ?_,
            Or.inr (Or.inr (Or.inr ⟨rfl, Or.inl hslot, hnone⟩))⟩
          rw [hne]
        | ok b1 =>
          cases hb2 : certBonus snap.certifications p.certification2 with
          | error e =>
            obtain ⟨n, hslot, hnone, hne⟩ := certBonus_error_shape _ _ _ hb2
            refine ⟨"certifications", n, ?_,
              Or.inr (Or.inr (Or.inr ⟨rfl, Or.inr hslot, hnone⟩))⟩
            rw [hne]
          | ok b2 =>
            exfalso
            rcases hm with ⟨mi, hmi, hnone⟩ | hcnone | honone | ⟨n, hslot, hnone⟩
            · have := resolveMaterials_ok_lookup snap.materials _ _ hres mi hmi
              rw [hnone] at this
              cases this
            · rw [hcnone] at hcare; cases hcare
            · rw [honone] at horig; cases horig
            · rcases hslot with h1 | h2
              · rw [h1, certBonus, hnone] at hb1; cases hb1
              · rw [h2, certBonus, hnone] at hb2; cases hb2

/-- Witness for the amended C3: a valid-composition product naming the
absent origin "Nowhere". -/
theorem unknownReferenceKey_amended_witness :
    ∃ t k, score snapW prodBadOrigin = .error (.UnknownReferenceKey t k) ∧
      offendingRef snapW prodBadOrigin t k :=
  unknownReferenceKey_amended snapW prodBadOrigin
    (by simp [validCompositionB, sumPercent, tolerance, prodBadOrigin])
    (Or.inr (Or.inr (Or.inl
      (by simp [lookupOrigin, snapW, prodBadOrigin, origRegionA, List.find?]))))

/-- C5: the Material Impact Aggregator is order-independent — for a valid
composition with all materials resolvable, any permutation of the ordered
(name, percentage) sequence yields the same raw impact vector on all four
indicators (summation over ℚ is exact). -/
theorem rawImpact_order_independent (tbl : List MaterialReference)
    (mats1 mats2 : List MaterialInput) (hperm : mats1.Perm mats2)
    (_hpos : ∀ m ∈ mats1, 0 ≤ m.percentage)
    (_hvalid : validCompositionB mats1 = true)
    (hres : ∀ m ∈ mats1, (lookupMaterial tbl m.name).isSome = true) :
    rawImpact tbl mats1 = rawImpact tbl mats2 := by
  have hall1 : ∀ m ∈ mats1,
      lookupMaterial tbl m.name = some ((lookupMaterial tbl m.name).iget) := by
    intro m hm
    cases hcase : lookupMaterial tbl m.name with
    | none =>
      have h2 := hres m hm
      rw [hcase] at h2
      simp at h2
    | some r => rfl
  have hall2 : ∀ m ∈ mats2,
      lookupMaterial tbl m.name = some ((lookupMaterial tbl m.name).iget) :=
    fun m hm => hall1 m (hperm.mem_iff.mpr hm)
  have h1 := resolveMaterials_ok_of tbl
    (fun m => (lookupMaterial tbl m.name).iget) mats1 hall1
  have h2 := resolveMaterials_ok_of tbl
    (fun m => (lookupMaterial tbl m.name).iget) mats2 hall2
  have hsum : ∀ f : MaterialReference → ℚ,
      weightedSum f (mats1.map
        (fun m => (m.percentage, (lookupMaterial tbl m.name).iget))) =
      weightedSum f (mats2.map
        (fun m => (m.percentage, (lookupMaterial tbl m.name).iget))) := by
    intro f
    unfold weightedSum
    rw [List.map_map, List.map_map]
    exact List.Perm.sum_eq (hperm.map _)
  simp only [rawImpact, h1, h2]
  rw [hsum (fun r => r.carbon_kg_co2e), hsum (fun r => r.water_l),
    hsum (fun r => r.fossil_energy_mj), hsum (fun r => r.chemical_impact)]

/-- Witness for C5: the 50/50 mix and its swapped material list. -/
theorem rawImpact_order_independent_witness :
    rawImpact snapW.materials prodMix.materials =
      rawImpact snapW.materials prodMixSwapped.materials :=
  rawImpact_order_independent snapW.materials prodMix.materials
    prodMixSwapped.materials
    (by
      simp only [prodMix, prodMixSwapped]
      exact List.Perm.swap (⟨"WoolY", 50⟩ : MaterialInput) ⟨"CottonX", 50⟩ [])
    (by
      intro m hm
      simp [prodMix] at hm
      rcases hm with rfl | rfl <;> norm_num)
    (by simp [validCompositionB, sumPercent, tolerance, prodMix]; norm_num)
    (by
      intro m hm
      simp [prodMix] at hm
      rcases hm with rfl | rfl <;>
        simp [lookupMaterial, snapW, matCottonX, matWoolY, List.find?])

/-- C7: filling an empty certification slot — either slot 1 or slot 2 —
with a certification whose score_bonus is strictly positive never
decreases the final score, despite the bonus cap and the final clamp. -/
theorem certification_bonus_monotone (snap : ReferenceSnapshot)
    (p p2 : ProductInput) (n : String) (cr : CertificationReference)
    (res : ScoreResult)
    (hfill : (p.certification1 = none ∧
        p2 = { p with certification1 := some n }) ∨
      (p.certification2 = none ∧
        p2 = { p with certification2 := some n }))
    (hcert : lookupCert snap.certifications n = some cr)
    (hpos : 0 < cr.score_bonus)
    (hok : score snap p = .ok res) :
    ∃ res2, score snap p2 = .ok res2 ∧
      res.final_score ≤ res2.final_score := by
  obtain ⟨hv, rs, c, o, b1, b2, hres, hcare, horig, hb1, hb2, hr⟩ :=
    (score_ok_iff snap p res).mp hok
  rcases hfill with ⟨hslot, rfl⟩ | ⟨hslot, rfl⟩
  · have hb1z : b1 = 0 := by
      rw [hslot, certBonus_none] at hb1
      injection hb1 with h2
      exact h2.symm
    refine ⟨composeScore snap rs o c (cr.score_bonus + b2), ?_, ?_⟩
    · exact (score_ok_iff snap _ _).mpr
        ⟨hv, rs, c, o, cr.score_bonus, b2, hres, hcare, horig,
          certBonus_some _ n cr hcert, hb2, rfl⟩
    · rw [hr]
      exact composeScore_final_mono_bonus snap rs o c _ _
        (by rw [hb1z]; linarith)
  · have hb2z : b2 = 0 := by
      rw [hslot, certBonus_none] at hb2
      injection hb2 with h2
      exact h2.symm
    refine ⟨composeScore snap rs o c (b1 + cr.score_bonus), ?_, ?_⟩
    · exact (score_ok_iff snap _ _).mpr
        ⟨hv, rs, c, o, b1, cr.score_bonus, hres, hcare, horig, hb1,
          certBonus_some _ n cr hcert, rfl⟩
    · rw [hr]
      exact composeScore_final_mono_bonus snap rs o c _ _
        (by rw [hb2z]; linarith)

/-- Witness for C7: adding CertA (bonus 0.10) to the empty first slot of
the 100%-WoolY product. -/
theorem certification_bonus_monotone_witness :
    ∃ res2, score snapW { prodWool with certification1 := some "CertA" } =
      .ok res2 ∧ resWool.final_score ≤ res2.final_score :=
  certification_bonus_monotone snapW prodWool
    { prodWool with certification1 := some "CertA" } "CertA" certCertA
    resWool (Or.inl ⟨rfl, rfl⟩)
    (by simp [lookupCert, snapW, certCertA, List.find?])
    (by norm_num [certCertA]) scoreWool_eval

/-- C6: replacing one material entry by a material whose reference values
are strictly higher on all four indicators, at the same percentage, never
increases the environmental score. -/
theorem material_replacement_monotone
    (snap : ReferenceSnapshot) (p : ProductInput)
    (pre post : List MaterialInput) (m m2 : MaterialInput)
    (r r2 : MaterialReference) (res : ScoreResult)
    (hm : p.materials = pre ++ m :: post)
    (hpct : m2.percentage = m.percentage)
    (hpos : 0 ≤ m.percentage)
    (hr : lookupMaterial snap.materials m.name = some r)
    (hr2 : lookupMaterial snap.materials m2.name = some r2)
    (hcarbon : r.carbon_kg_co2e < r2.carbon_kg_co2e)
    (hwater : r.water_l < r2.water_l)
    (henergy : r.fossil_energy_mj < r2.fossil_energy_mj)
    (hchem : r.chemical_impact < r2.chemical_impact)
    (hok : score snap p = .ok res) :
    ∃ res2, score snap { p with materials := pre ++ m2 :: post } = .ok res2 ∧
      res2.environmental_score ≤ res.environmental_score := by
  obtain ⟨hv, rs, c, o, b1, b2, hres, hcare, horig, hb1, hb2, hrEq⟩ :=
    (score_ok_iff snap p res).mp hok
  have hall : ∀ mi ∈ p.materials,
      lookupMaterial snap.materials mi.name =
        some ((lookupMaterial snap.materials mi.name).iget) :=
    resolveMaterials_ok_lookup snap.materials p.materials rs hres
  have hrs_eq : rs = p.materials.map
      (fun mi => (mi.percentage, (lookupMaterial snap.materials mi.name).iget)) :=
    resolveMaterials_ok_eq snap.materials p.materials rs hres
  have hsum : sumPercent (pre ++ m2 :: post) = sumPercent (pre ++ m :: post) := by
    simp [sumPercent, hpct]
  have hv2 : validCompositionB (pre ++ m2 :: post) = true := by
    rw [hm] at hv
    simp only [validCompositionB, Bool.and_eq_true, Bool.not_eq_true',
      decide_eq_true_eq] at hv ⊢
    refine ⟨by simp, ?_⟩
    rw [hsum]
    exact hv.2
  have hall2 : ∀ mi ∈ pre ++ m2 :: post,
      lookupMaterial snap.materials mi.name =
        some ((lookupMaterial snap.materials mi.name).iget) := by
    intro mi hmi
    rcases List.mem_append.mp hmi with hpre | hcons
    · exact hall mi (by rw [hm]; exact List.mem_append.mpr (Or.inl hpre))
    · rcases List.mem_cons.mp hcons with heq | hpost
      · subst heq; rw [hr2]
      · exact hall mi (by
          rw [hm]
          exact List.mem_append.mpr (Or.inr (List.mem_cons.mpr (Or.inr hpost))))
  have hres2 := resolveMaterials_ok_of snap.materials
    (fun mi => (lookupMaterial snap.materials mi.name).iget)
    (pre ++ m2 :: post) hall2
  have hgm : (lookupMaterial snap.materials m.name).iget = r := by rw [hr]
  have hgm2 : (lookupMaterial snap.materials m2.name).iget = r2 := by rw [hr2]
  have hws : ∀ f : MaterialReference → ℚ, f r ≤ f r2 →
      weightedSum f (p.materials.map
        (fun mi => (mi.percentage, (lookupMaterial snap.materials mi.name).iget))) ≤
      weightedSum f ((pre ++ m2 :: post).map
        (fun mi => (mi.percentage, (lookupMaterial snap.materials mi.name).iget))) := by
    intro f hf
    rw [hm]
    unfold weightedSum
    simp only [List.map_append, List.map_cons, List.sum_append, List.sum_cons,
      List.map_map]
    simp only [Function.comp, hgm, hgm2, hpct]
    have hmul : m.percentage / 100 * f r ≤ m.percentage / 100 * f r2 :=
      mul_le_mul_of_nonneg_left hf (by positivity)
    linarith
  refine ⟨composeScore snap ((pre ++ m2 :: post).map
      (fun mi => (mi.percentage, (lookupMaterial snap.materials mi.name).iget)))
      o c (b1 + b2), ?_, ?_⟩
  · exact (score_ok_iff snap _ _).mpr
      ⟨hv2, _, c, o, b1, b2, hres2, hcare, horig, hb1, hb2, rfl⟩
  · rw [hrEq, hrs_eq]
    exact composeScore_env_mono snap _ _ o c (b1 + b2) (b1 + b2)
      (hws _ (le_of_lt hcarbon)) (hws _ (le_of_lt hwater))
      (hws _ (le_of_lt henergy)) (hws _ (le_of_lt hchem))

/-- Witness for C6: replacing 100% CottonX by 100% WoolY (strictly higher
on all four indicators) in the concrete snapshot. -/
theorem material_replacement_monotone_witness :
    ∃ res2, score snapW
        { prodCotton with
          materials := [] ++ (⟨"WoolY", 100⟩ : MaterialInput) :: [] } =
      .ok res2 ∧ res2.environmental_score ≤ resCotton.environmental_score :=
  material_replacement_monotone snapW prodCotton [] [] ⟨"CottonX", 100⟩
    ⟨"WoolY", 100⟩ matCottonX matWoolY resCotton rfl rfl (by norm_num)
    (by simp [lookupMaterial, snapW, matCottonX, matWoolY, List.find?])
    (by simp [lookupMaterial, snapW, matCottonX, matWoolY, List.find?])
    (by norm_num [matCottonX, matWoolY]) (by norm_num [matCottonX, matWoolY])
    (by norm_num [matCottonX, matWoolY]) (by norm_num [matCottonX, matWoolY])
    scoreCotton_eval

end FashionScore
